import Mathlib

/-!
# rainstorm: admission control and stream loops of `message/message.go`

A shallow embedding of the listener (`runServer`, `handleConnection` and its
per-stream goroutine) and of the dialer (`runClient`, read loop and write loop).

Modelling conventions.

* Go strings and byte slices are `String`; `[]byte(s)` and `string(b)` keep the
  content, so both are the identity here.
* Every call into the transport or the console is an `Effect` appended, in program
  order, to the output of the function that makes it.  What the environment answers
  (accept results, read results, console lines, write errors) is the input.
* A Go `for` loop that blocks on the environment is a function over the finite list
  of answers received so far; it reports whether the goroutine has returned or is
  still blocked waiting for the next answer.
* `connSemaphore` is a buffered `chan struct{}`; only its length and capacity matter.
-/

namespace Rainstorm

/-! ## Channels of `struct{}` -/

/-- Buffered channel of `struct{}` values: the buffer length and the capacity. -/
structure Chan where
  cap : Nat
  len : Nat
deriving DecidableEq, Repr

/-- Go `make(chan struct{}, n)`: an empty buffer of capacity `n`. -/
def makeChan (n : Nat) : Chan := ⟨n, 0⟩

/-- Source constant `maxConnections = 5` (line 19). -/
def maxConnections : Nat := 5

/-- Source variable `connSemaphore = make(chan struct{}, maxConnections)` (line 20). -/
def connSemaphore : Chan := makeChan maxConnections

/-- Go `select { case ch <- struct{}{}: A  default: B }`: the send case is taken exactly
when the buffer has room (no goroutine of this program ever waits to receive on
`connSemaphore`, so a send cannot be handed over directly).  Returns whether the send
case was taken and the channel afterwards. -/
def Chan.trySend (c : Chan) : Bool × Chan :=
  if c.len < c.cap then (true, { c with len := c.len + 1 }) else (false, c)

/-- Go `<-ch`: takes one element; `none` when the buffer is empty, where the receive
would block. -/
def Chan.recv (c : Chan) : Option Chan :=
  if 0 < c.len then some { c with len := c.len - 1 } else none

/-! ## Effects -/

/-- Calls made by the program, in the order it makes them. -/
inductive Effect where
  /-- Console output of `fmt.Print`, `fmt.Println`, `fmt.Printf`. -/
  | stdout (text : String)
  /-- Output of `log.Printf`. -/
  | logf (text : String)
  /-- Output of `log.Fatalf`, which then ends the process. -/
  | fatalf (text : String)
  /-- Call of `os.Exit(code)`. -/
  | osExit (code : Nat)
  /-- Statement `go handleConnection(conn)`. -/
  | goHandleConnection (conn : Nat)
  /-- Statement `go func(s quic.Stream)` of `handleConnection`, for stream `s` of `conn`. -/
  | goStream (conn : Nat) (stream : Nat)
  /-- Call of `conn.OpenStreamSync`. -/
  | openStreamSync (conn : Nat)
  /-- Call of `stream.Read`. -/
  | read (stream : Nat)
  /-- Call of `stream.Write(payload)`. -/
  | write (stream : Nat) (payload : String)
  /-- Call of `stream.Close()`. -/
  | closeStream (stream : Nat)
  /-- Call of `conn.CloseWithError(code, reason)`. -/
  | closeWithError (conn : Nat) (code : Nat) (reason : String)
  /-- Deferred `<-connSemaphore` of the handler of `conn`. -/
  | release (conn : Nat)
deriving DecidableEq, Repr

/-- Text written by the acceptor to a connection it turns away (line 71), and matched
by the client read loop (line 153). -/
def rejectionPayload : String := "Connection rejected: maximum connection limit reached"

/-- Close code passed to `CloseWithError` by the acceptor on rejection (line 77). -/
def rejectCloseCode : Nat := 0

/-- Close code passed to `CloseWithError` by the client read loop after the rejection
payload (line 156). -/
def rejectAckCloseCode : Nat := 0

/-- Close code passed to `CloseWithError` by the client write loop on `exit` (line 174). -/
def exitCloseCode : Nat := 0x42

/-! ## Acceptor loop of `runServer` -/

/-- Result of obtaining a stream from a connection (`conn.AcceptStream`,
`conn.OpenStreamSync`): an error, or the stream. -/
inductive StreamAccept where
  | err (e : String)
  | ok (stream : Nat)
deriving DecidableEq, Repr

/-- An accepted connection together with what the transport answers if the acceptor
turns it away: the result of `OpenStreamSync` (a stream, or an error) and the error, if
any, of the `Write` on that stream. -/
structure Conn where
  id : Nat
  openStream : StreamAccept
  writeErr : Option String
deriving DecidableEq, Repr

/-- Result of `listener.Accept`. -/
inductive AcceptResult where
  | err (e : String)
  | ok (c : Conn)
deriving DecidableEq, Repr

/-- What a loop iteration does next: go round again, or return from the function. -/
inductive Ctl where
  | next
  | stop
deriving DecidableEq, Repr

/-- The `default:` branch of the admission `select` (lines 65-77): the rejection of an
accepted connection. -/
def rejectConnection (c : Conn) : List Effect :=
  [.stdout "Maximum Connections Reached\n", .openStreamSync c.id] ++
  (match c.openStream with
   | .ok stream =>
     [.write stream rejectionPayload] ++
     (match c.writeErr with
      | some e => [.logf ("Failed to send rejection message: " ++ e)]
      | none => []) ++
     [.closeStream stream]
   | .err _ => []) ++
  [.closeWithError c.id rejectCloseCode "Maximum Connection Reached"]

/-- One iteration of the `for` of `runServer` (lines 47-80), given whether `shutdown` is
closed, the semaphore, and the result of `listener.Accept`. -/
def runServerIter (shutdown : Bool) (sem : Chan) : AcceptResult → Ctl × Chan × List Effect
  | .err e =>
    if shutdown then (.stop, sem, [])
    else (.next, sem, [.logf ("Failed to accept connection: " ++ e)])
  | .ok c =>
    match sem.trySend with
    | (true, sem') => (.next, sem', [.stdout "New connection accepted\n", .goHandleConnection c.id])
    | (false, sem') => (.next, sem', rejectConnection c)

/-! ## `handleConnection` -/

/-- One iteration of the `for` of `handleConnection` (lines 89-113) for connection
`conn`.  On a stream-accept error the function returns and its deferred
`<-connSemaphore` runs; the result is `none` if that receive would block. -/
def handleConnectionIter (conn : Nat) (sem : Chan) : StreamAccept → Option (Ctl × Chan × List Effect)
  | .ok stream => some (.next, sem, [.goStream conn stream])
  | .err e =>
    match sem.recv with
    | some sem' => some (.stop, sem', [.logf ("Failed to accept stream: " ++ e), .release conn])
    | none => none

/-! ## The listener as a transition system -/

/-- State of the listener process. -/
structure Server where
  /-- Whether the `shutdown` channel is closed. -/
  shutdown : Bool
  /-- The admission semaphore. -/
  sem : Chan
  /-- Connections whose `handleConnection` goroutine is running. -/
  handlers : List Nat
  /-- Whether `runServer` has returned. -/
  stopped : Bool
  /-- Effects so far, oldest first. -/
  out : List Effect
deriving DecidableEq, Repr

/-- State right after `runServer` starts listening, with a semaphore of capacity `m`. -/
def Server.init (m : Nat) (shutdown : Bool) : Server :=
  { shutdown := shutdown, sem := makeChan m, handlers := [], stopped := false, out := [] }

/-- Things that happen to the listener: `listener.Accept` returns in the acceptor, or
`conn.AcceptStream` returns in the handler of `conn`. -/
inductive Event where
  | accept (r : AcceptResult)
  | streamAccept (conn : Nat) (r : StreamAccept)
deriving DecidableEq, Repr

/-- The handlers started by a list of effects: the argument of each `go handleConnection`. -/
def startedHandlers (effs : List Effect) : List Nat :=
  effs.filterMap (fun e =>
    match e with
    | .goHandleConnection c => some c
    | _ => none)

/-- One transition.  `none` when the event cannot happen: the acceptor has returned,
no handler runs for the connection, or the handler blocks in its deferred receive. -/
def Server.step (s : Server) : Event → Option Server
  | .accept r =>
    if s.stopped then none
    else
      match runServerIter s.shutdown s.sem r with
      | (ctl, sem', effs) =>
        some { s with
          sem := sem'
          handlers := s.handlers ++ startedHandlers effs
          stopped := decide (ctl = .stop)
          out := s.out ++ effs }
  | .streamAccept conn r =>
    if conn ∈ s.handlers then
      match handleConnectionIter conn s.sem r with
      | some (ctl, sem', effs) =>
        some { s with
          sem := sem'
          handlers := if ctl = .stop then s.handlers.erase conn else s.handlers
          out := s.out ++ effs }
      | none => none
    else none

/-- Runs a sequence of events. -/
def Server.run (s : Server) : List Event → Option Server
  | [] => some s
  | e :: es => (s.step e).bind (fun s' => s'.run es)

/-! ## The slot-accounting invariant -/

/-- Invariant of the listener for a semaphore of capacity `m`: the capacity is `m`, at
most `m` slots are held, the slots held are as many as the running handlers, and for
every connection the handlers started for it are those still running plus those that
have released. -/
structure Inv (m : Nat) (s : Server) : Prop where
  cap : s.sem.cap = m
  bound : s.sem.len ≤ m
  held : s.sem.len = s.handlers.length
  account : ∀ c, s.out.count (.goHandleConnection c) =
    s.handlers.count c + s.out.count (.release c)

/-! ## Stream reads: the per-stream goroutine of `handleConnection` and the client read loop -/

/-- Error value returned by `stream.Read`: `io.EOF`, or any other error with its text. -/
inductive ReadErr where
  | eof
  | other (e : String)
deriving DecidableEq, Repr

/-- Result `(n, err)` of `stream.Read(buf)`: `data` is `string(buf[:n])`, the bytes the
call put in the buffer, and `err` the error, `none` for `nil`. -/
structure ReadResult where
  data : String
  err : Option ReadErr
deriving DecidableEq, Repr

/-- The goroutine started by `handleConnection` for stream `s` (lines 96-112), run on the
read results received so far.  Each `Read` is recorded when it is called, so the output
ends with a `read` while the goroutine waits for the next result.  The `return` sits
inside `if err != io.EOF`; a `nil` error and `io.EOF` both fall through to the
`Printf` and to the next iteration.  The deferred `s.Close()` runs on return.  The
second component tells whether the goroutine has returned. -/
def streamHandler (s : Nat) : List ReadResult → List Effect × Bool
  | [] => ([.read s], false)
  | r :: rest =>
    match r.err with
    | some (.other e) =>
      ([.read s, .logf ("Error reading from stream: " ++ e), .closeStream s], true)
    | _ =>
      (.read s :: .stdout ("Received: " ++ r.data ++ "\n") :: (streamHandler s rest).1,
       (streamHandler s rest).2)

/-- The read goroutine of `runClient` (lines 140-159) for connection `conn` and its
stream `stream`, run on the read results received so far; the second component tells
whether the goroutine has returned.  Any error returns (only errors other than `io.EOF`
are logged); after a successful read the message is printed and, if it is the rejection
text, the stream and the connection are closed, and the loop goes round again. -/
def clientReadLoop (conn stream : Nat) : List ReadResult → List Effect × Bool
  | [] => ([.read stream], false)
  | r :: rest =>
    match r.err with
    | some .eof => ([.read stream], true)
    | some (.other e) => ([.read stream, .logf ("Error reading from stream: " ++ e)], true)
    | none =>
      ([.read stream, .stdout ("Client received: " ++ r.data ++ "\n")] ++
        (if r.data = rejectionPayload then
          [.stdout "Client connection rejected: maximum connection limit reached\n",
           .closeStream stream,
           .closeWithError conn rejectAckCloseCode
             "Client exiting due to max connections reached"]
         else []) ++
        (clientReadLoop conn stream rest).1,
       (clientReadLoop conn stream rest).2)

/-! ## The client write loop -/

/-- Go `unicode.IsSpace`: the Unicode white space characters. -/
def isSpace (c : Char) : Bool :=
  c.toNat = 0x09 || c.toNat = 0x0A || c.toNat = 0x0B || c.toNat = 0x0C || c.toNat = 0x0D ||
  c.toNat = 0x20 || c.toNat = 0x85 || c.toNat = 0xA0 || c.toNat = 0x1680 ||
  (0x2000 ≤ c.toNat && c.toNat ≤ 0x200A) || c.toNat = 0x2028 || c.toNat = 0x2029 ||
  c.toNat = 0x202F || c.toNat = 0x205F || c.toNat = 0x3000

/-- Go `strings.TrimSpace`: the string without its leading and trailing white space. -/
def trimSpace (s : String) : String :=
  String.mk ((s.data.dropWhile isSpace).reverse.dropWhile isSpace).reverse

/-- One console line as the write loop meets it: what `ReadString` returned (its error is
discarded by the code) and the error, if any, that `stream.Write` returns for it. -/
structure ConsoleLine where
  raw : String
  writeErr : Option String
deriving DecidableEq, Repr

/-- The write loop of `runClient` (lines 162-177) for connection `conn` and its stream
`stream`, run on the console lines received so far; the second component tells whether
the process has terminated (`log.Fatalf` or `os.Exit`).  The prompt is recorded when it
is printed, so the output ends with it while the loop waits for the next line. -/
def clientWriteLoop (conn stream : Nat) : List ConsoleLine → List Effect × Bool
  | [] => ([.stdout "Enter message: "], false)
  | l :: rest =>
    match l.writeErr with
    | some e =>
      ([.stdout "Enter message: ", .write stream (trimSpace l.raw), .stdout "Sent Message\n",
        .fatalf ("Failed to send data: " ++ e)], true)
    | none =>
      if trimSpace l.raw = "exit" then
        ([.stdout "Enter message: ", .write stream (trimSpace l.raw), .stdout "Sent Message\n",
          .closeWithError conn exitCloseCode "Client Closed Connection", .osExit 0], true)
      else
        ([.stdout "Enter message: ", .write stream (trimSpace l.raw), .stdout "Sent Message\n"] ++
          (clientWriteLoop conn stream rest).1,
         (clientWriteLoop conn stream rest).2)

/-! ## Kinds of effects -/

/-- Whether an effect is a call of `CloseWithError`. -/
def Effect.isCloseWithError : Effect → Bool
  | .closeWithError _ _ _ => true
  | _ => false

/-- Whether an effect is a call of `OpenStreamSync`. -/
def Effect.isOpenStreamSync : Effect → Bool
  | .openStreamSync _ => true
  | _ => false

/-- Whether an effect is a call of `Write`. -/
def Effect.isWrite : Effect → Bool
  | .write _ _ => true
  | _ => false

/-- Whether an effect is a call of `Read`. -/
def Effect.isRead : Effect → Bool
  | .read _ => true
  | _ => false

/-- Whether an effect is a line of `log.Printf`. -/
def Effect.isLogf : Effect → Bool
  | .logf _ => true
  | _ => false

/-- Whether an effect starts a connection handler. -/
def Effect.isGoHandleConnection : Effect → Bool
  | .goHandleConnection _ => true
  | _ => false

/-- Whether an effect is the deferred release of an admission slot. -/
def Effect.isRelease : Effect → Bool
  | .release _ => true
  | _ => false

/-! # Theorems -/

/-! ## Basic facts about the semaphore and single iterations -/

theorem trySend_of_lt (c : Chan) (h : c.len < c.cap) :
    c.trySend = (true, { c with len := c.len + 1 }) := by
  simp [Chan.trySend, h]

theorem trySend_of_not_lt (c : Chan) (h : ¬ c.len < c.cap) : c.trySend = (false, c) := by
  simp [Chan.trySend, h]

theorem recv_of_pos (c : Chan) (h : 0 < c.len) :
    c.recv = some { c with len := c.len - 1 } := by
  simp [Chan.recv, h]

theorem runServerIter_admitted (sd : Bool) (sem : Chan) (c : Conn) (h : sem.len < sem.cap) :
    runServerIter sd sem (.ok c) =
      (.next, { sem with len := sem.len + 1 },
        [.stdout "New connection accepted\n", .goHandleConnection c.id]) := by
  simp [runServerIter, trySend_of_lt sem h]

theorem runServerIter_reject (sd : Bool) (sem : Chan) (c : Conn) (h : ¬ sem.len < sem.cap) :
    runServerIter sd sem (.ok c) = (.next, sem, rejectConnection c) := by
  simp [runServerIter, trySend_of_not_lt sem h]

theorem startedHandlers_reject (c : Conn) : startedHandlers (rejectConnection c) = [] := by
  unfold rejectConnection startedHandlers
  cases c.openStream <;> cases c.writeErr <;> rfl

theorem count_go_reject (c : Conn) (x : Nat) :
    (rejectConnection c).count (.goHandleConnection x) = 0 := by
  unfold rejectConnection
  cases c.openStream <;> cases c.writeErr <;> simp

theorem count_release_reject (c : Conn) (x : Nat) :
    (rejectConnection c).count (.release x) = 0 := by
  unfold rejectConnection
  cases c.openStream <;> cases c.writeErr <;> simp

/-! ## Transitions, case by case -/

theorem step_accept_err (s : Server) (e : String) (h : s.stopped = false) :
    s.step (.accept (.err e)) = some { s with
      stopped := s.shutdown
      out := s.out ++
        (if s.shutdown then [] else [.logf ("Failed to accept connection: " ++ e)]) } := by
  cases hs : s.shutdown <;> simp [Server.step, h, hs, runServerIter, startedHandlers]

theorem step_accept_admitted (s : Server) (c : Conn) (h : s.stopped = false)
    (hlt : s.sem.len < s.sem.cap) :
    s.step (.accept (.ok c)) = some { s with
      sem := { s.sem with len := s.sem.len + 1 }
      handlers := s.handlers ++ [c.id]
      out := s.out ++ [.stdout "New connection accepted\n", .goHandleConnection c.id] } := by
  simp [Server.step, h, runServerIter_admitted s.shutdown s.sem c hlt, startedHandlers]

theorem step_accept_reject (s : Server) (c : Conn) (h : s.stopped = false)
    (hfull : ¬ s.sem.len < s.sem.cap) :
    s.step (.accept (.ok c)) = some { s with out := s.out ++ rejectConnection c } := by
  simp [Server.step, h, runServerIter_reject s.shutdown s.sem c hfull, startedHandlers_reject]

theorem step_stream_ok (s : Server) (conn stream : Nat) (h : conn ∈ s.handlers) :
    s.step (.streamAccept conn (.ok stream)) =
      some { s with out := s.out ++ [.goStream conn stream] } := by
  simp [Server.step, h, handleConnectionIter]

theorem step_stream_err (s : Server) (conn : Nat) (e : String) (h : conn ∈ s.handlers)
    (hpos : 0 < s.sem.len) :
    s.step (.streamAccept conn (.err e)) = some { s with
      sem := { s.sem with len := s.sem.len - 1 }
      handlers := s.handlers.erase conn
      out := s.out ++ [.logf ("Failed to accept stream: " ++ e), .release conn] } := by
  simp [Server.step, h, handleConnectionIter, recv_of_pos s.sem hpos]

theorem step_stopped (s : Server) (r : AcceptResult) (h : s.stopped = true) :
    s.step (.accept r) = none := by
  simp [Server.step, h]

theorem step_no_handler (s : Server) (conn : Nat) (r : StreamAccept) (h : conn ∉ s.handlers) :
    s.step (.streamAccept conn r) = none := by
  simp [Server.step, h]

theorem step_accept_ne_none (s : Server) (r : AcceptResult) (h : s.stopped = false) :
    s.step (.accept r) ≠ none := by
  simp only [Server.step, h]
  simp

/-! ## The slot-accounting invariant is kept by every transition -/

theorem inv_init (m : Nat) (sd : Bool) : Inv m (Server.init m sd) := by
  constructor <;> simp [Server.init, makeChan]

theorem inv_step (m : Nat) (s s' : Server) (ev : Event) (hinv : Inv m s)
    (hstep : s.step ev = some s') : Inv m s' := by
  obtain ⟨hcap, hbound, hheld, hacc⟩ := hinv
  cases ev with
  | accept r =>
    cases hst : s.stopped with
    | true => rw [step_stopped s r hst] at hstep; cases hstep
    | false =>
      cases r with
      | err e =>
        rw [step_accept_err s e hst] at hstep
        cases hstep
        refine ⟨hcap, hbound, hheld, ?_⟩
        intro c
        have := hacc c
        cases hs : s.shutdown <;> simp [List.count_append, this]
      | ok c =>
        by_cases hlt : s.sem.len < s.sem.cap
        · rw [step_accept_admitted s c hst hlt] at hstep
          cases hstep
          refine ⟨hcap, ?_, ?_, ?_⟩
          · simp only; omega
          · simp [hheld]
          · intro x
            have := hacc x
            simp only [List.count_append, this]
            by_cases hx : c.id = x
            · subst hx; simp; omega
            · have hx' : ¬ x = c.id := fun h => hx h.symm
              simp [hx, hx', List.count_cons]
        · rw [step_accept_reject s c hst hlt] at hstep
          cases hstep
          refine ⟨hcap, hbound, hheld, ?_⟩
          intro x
          simp [List.count_append, hacc x, count_go_reject, count_release_reject]
  | streamAccept conn r =>
    by_cases hmem : conn ∈ s.handlers
    · cases r with
      | ok stream =>
        rw [step_stream_ok s conn stream hmem] at hstep
        cases hstep
        refine ⟨hcap, hbound, hheld, ?_⟩
        intro x
        simp [List.count_append, hacc x]
      | err e =>
        have hpos : 0 < s.sem.len := by
          rw [hheld]; exact List.length_pos_of_mem hmem
        rw [step_stream_err s conn e hmem hpos] at hstep
        cases hstep
        refine ⟨hcap, ?_, ?_, ?_⟩
        · simp only; omega
        · simp only [List.length_erase_of_mem hmem, hheld]
        · intro x
          have := hacc x
          simp only [List.count_append, this, List.count_erase]
          have hc : 0 < s.handlers.count conn := List.count_pos_iff.mpr hmem
          by_cases hx : conn = x
          · subst hx; simp; omega
          · have hx' : ¬ x = conn := fun h => hx h.symm
            simp [hx, hx']
    · rw [step_no_handler s conn r hmem] at hstep; cases hstep

theorem inv_run (m : Nat) (evs : List Event) (s s' : Server) (hinv : Inv m s)
    (hrun : s.run evs = some s') : Inv m s' := by
  induction evs generalizing s with
  | nil => simp [Server.run] at hrun; subst hrun; exact hinv
  | cons e es ih =>
    simp only [Server.run] at hrun
    cases hstep : s.step e with
    | none => rw [hstep] at hrun; cases hrun
    | some s1 =>
      rw [hstep] at hrun
      exact ih s1 (inv_step m s s1 e hinv hstep) hrun

/-! ## A burst of arrivals with no handler exit -/

theorem run_arrivals (conns : List Conn) (s : Server) (hrun : s.stopped = false)
    (hle : s.sem.len ≤ s.sem.cap) :
    s.run (conns.map (fun c => Event.accept (.ok c))) = some { s with
      sem := { s.sem with len := min (s.sem.len + conns.length) s.sem.cap }
      handlers := s.handlers ++ (conns.take (s.sem.cap - s.sem.len)).map Conn.id
      out := s.out ++
        (conns.take (s.sem.cap - s.sem.len)).flatMap
          (fun c => [Effect.stdout "New connection accepted\n", .goHandleConnection c.id]) ++
        (conns.drop (s.sem.cap - s.sem.len)).flatMap rejectConnection } := by
  induction conns generalizing s with
  | nil =>
    obtain ⟨sd, ⟨cap, len⟩, hs, st, out⟩ := s
    simp only at hle
    simp [Server.run, Nat.min_eq_left hle]
  | cons c cs ih =>
    simp only [List.map_cons, Server.run]
    by_cases hlt : s.sem.len < s.sem.cap
    · rw [step_accept_admitted s c hrun hlt]
      simp only [Option.bind_eq_bind, Option.some_bind]
      rw [ih { s with
        sem := { s.sem with len := s.sem.len + 1 }
        handlers := s.handlers ++ [c.id]
        out := s.out ++ [.stdout "New connection accepted\n", .goHandleConnection c.id] }
        hrun (by simp only; omega)]
      obtain ⟨k, hk⟩ : ∃ k, s.sem.cap - s.sem.len = k + 1 := ⟨s.sem.cap - s.sem.len - 1, by omega⟩
      have hk' : s.sem.cap - (s.sem.len + 1) = k := by omega
      simp only [hk, hk', List.take_succ_cons, List.drop_succ_cons, List.map_cons,
        List.flatMap_cons, List.length_cons, List.append_assoc, List.cons_append,
        List.nil_append]
      congr 3
      omega
    · rw [step_accept_reject s c hrun hlt]
      simp only [Option.bind_eq_bind, Option.some_bind]
      rw [ih { s with out := s.out ++ rejectConnection c } hrun hle]
      have hk : s.sem.cap - s.sem.len = 0 := by omega
      have hmin : min (s.sem.len + cs.length) s.sem.cap = s.sem.cap := by omega
      have hmin' : min (s.sem.len + (c :: cs).length) s.sem.cap = s.sem.cap := by
        simp only [List.length_cons]; omega
      simp only [hk, hmin, hmin', List.take_zero, List.drop_zero, List.map_nil,
        List.flatMap_nil, List.flatMap_cons, List.append_nil, List.append_assoc]

theorem countP_go_reject (c : Conn) :
    (rejectConnection c).countP Effect.isGoHandleConnection = 0 := by
  unfold rejectConnection
  cases c.openStream <;> cases c.writeErr <;> simp [Effect.isGoHandleConnection]

theorem countP_close_reject (c : Conn) :
    (rejectConnection c).countP Effect.isCloseWithError = 1 := by
  unfold rejectConnection
  cases c.openStream <;> cases c.writeErr <;> simp [Effect.isCloseWithError]

theorem close_mem_reject (c : Conn) :
    Effect.closeWithError c.id 0 "Maximum Connection Reached" ∈ rejectConnection c := by
  unfold rejectConnection
  simp [rejectCloseCode]

theorem write_mem_reject (c : Conn) (stream : Nat) (h : c.openStream = .ok stream) :
    Effect.write stream "Connection rejected: maximum connection limit reached" ∈
      rejectConnection c := by
  unfold rejectConnection
  rw [h]
  simp [rejectionPayload]

/-! ## The read loops, result by result -/

theorem streamHandler_running (s : Nat) (rs : List ReadResult)
    (h : ∀ r ∈ rs, r.err = none ∨ r.err = some .eof) :
    (streamHandler s rs).2 = false ∧
    (streamHandler s rs).1.countP Effect.isRead = rs.length + 1 ∧
    (streamHandler s rs).1.countP Effect.isLogf = 0 := by
  induction rs with
  | nil => exact ⟨rfl, rfl, rfl⟩
  | cons r rest ih =>
    have ih' := ih (fun x hx => h x (List.mem_cons_of_mem r hx))
    unfold streamHandler
    rcases h r (List.mem_cons_self r rest) with hr | hr <;>
      simp [hr, ih', Effect.isRead, Effect.isLogf]

theorem clientReadLoop_rejection (conn stream : Nat) (rest : List ReadResult) :
    clientReadLoop conn stream (⟨rejectionPayload, none⟩ :: rest) =
      ([.read stream, .stdout ("Client received: " ++ rejectionPayload ++ "\n"),
        .stdout "Client connection rejected: maximum connection limit reached\n",
        .closeStream stream,
        .closeWithError conn 0 "Client exiting due to max connections reached"] ++
        (clientReadLoop conn stream rest).1,
       (clientReadLoop conn stream rest).2) := by
  simp [clientReadLoop, rejectAckCloseCode]

theorem clientReadLoop_other_payload (conn stream : Nat) (data : String)
    (rest : List ReadResult) (h : data ≠ rejectionPayload) :
    clientReadLoop conn stream (⟨data, none⟩ :: rest) =
      ([.read stream, .stdout ("Client received: " ++ data ++ "\n")] ++
        (clientReadLoop conn stream rest).1,
       (clientReadLoop conn stream rest).2) := by
  simp [clientReadLoop, h]

/-! ## The client write loop, line by line -/

theorem clientWriteLoop_running (conn stream : Nat) (ls : List ConsoleLine)
    (h : (clientWriteLoop conn stream ls).2 = false) :
    ∀ b ∈ ls, b.writeErr = none ∧ trimSpace b.raw ≠ "exit" := by
  induction ls with
  | nil => intro b hb; cases hb
  | cons l rest ih =>
    unfold clientWriteLoop at h
    cases hw : l.writeErr with
    | some e => simp [hw] at h
    | none =>
      by_cases hx : trimSpace l.raw = "exit"
      · simp [hw, hx] at h
      · simp only [hw, hx, if_false] at h
        intro b hb
        rcases List.mem_cons.mp hb with rfl | hb
        · exact ⟨hw, hx⟩
        · exact ih h b hb

theorem clientWriteLoop_until_exit (conn stream : Nat) (before after : List ConsoleLine)
    (l : ConsoleLine) (hbefore : ∀ b ∈ before, b.writeErr = none ∧ trimSpace b.raw ≠ "exit")
    (hexit : trimSpace l.raw = "exit") (hwrite : l.writeErr = none) :
    clientWriteLoop conn stream (before ++ l :: after) =
      (before.flatMap (fun b =>
          [Effect.stdout "Enter message: ", .write stream (trimSpace b.raw),
           .stdout "Sent Message\n"]) ++
        [.stdout "Enter message: ", .write stream "exit", .stdout "Sent Message\n",
         .closeWithError conn 0x42 "Client Closed Connection", .osExit 0], true) := by
  induction before with
  | nil =>
    simp [clientWriteLoop, hexit, hwrite, exitCloseCode]
  | cons b bs ih =>
    have hb := hbefore b (List.mem_cons_self b bs)
    have ih' := ih (fun x hx => hbefore x (List.mem_cons_of_mem b hx))
    simp only [List.cons_append, List.flatMap_cons]
    unfold clientWriteLoop
    simp only [hb.1, hb.2, if_false, ih']
    simp

/-! ## Admission (C7), accept errors (C9) -/

/-- C7: the admission attempt of the acceptor loop (the `select` on `connSemaphore` with
a `default` branch) never blocks: the iteration always completes and goes on to the
next accept.  It succeeds (a handler is started) if and only if fewer than
`maxConnections` slots are held; on success the held-slot count grows by exactly one,
on failure the semaphore is unchanged. -/
theorem admission_attempt (s : Server) (c : Conn) (hrun : s.stopped = false)
    (hcap : s.sem.cap = maxConnections) :
    (s.sem.trySend.1 = true ↔ s.sem.len < maxConnections) ∧
    (s.sem.trySend.1 = true →
      s.sem.trySend.2.len = s.sem.len + 1 ∧ s.sem.trySend.2.cap = s.sem.cap) ∧
    (s.sem.trySend.1 = false → s.sem.trySend.2 = s.sem) ∧
    (∃ s', s.step (.accept (.ok c)) = some s' ∧ s'.stopped = false ∧
      s'.sem = s.sem.trySend.2 ∧
      (s.sem.len < maxConnections →
        s'.sem.len = s.sem.len + 1 ∧ s'.handlers = s.handlers ++ [c.id]) ∧
      (¬ s.sem.len < maxConnections →
        s'.sem = s.sem ∧ s'.handlers = s.handlers)) := by
  by_cases hlt : s.sem.len < s.sem.cap
  · have hlt' : s.sem.len < maxConnections := hcap ▸ hlt
    refine ⟨?_, ?_, ?_, ?_⟩
    · simp [trySend_of_lt s.sem hlt, hlt']
    · simp [trySend_of_lt s.sem hlt]
    · simp [trySend_of_lt s.sem hlt]
    · refine ⟨_, step_accept_admitted s c hrun hlt, hrun, ?_, ?_, ?_⟩
      · simp [trySend_of_lt s.sem hlt]
      · intro _; exact ⟨rfl, rfl⟩
      · intro h; exact absurd hlt' h
  · have hlt' : ¬ s.sem.len < maxConnections := hcap ▸ hlt
    refine ⟨?_, ?_, ?_, ?_⟩
    · simp [trySend_of_not_lt s.sem hlt, hlt']
    · simp [trySend_of_not_lt s.sem hlt]
    · simp [trySend_of_not_lt s.sem hlt]
    · refine ⟨_, step_accept_reject s c hrun hlt, hrun, ?_, ?_, ?_⟩
      · simp [trySend_of_not_lt s.sem hlt]
      · intro h; exact absurd h hlt'
      · intro _; exact ⟨rfl, rfl⟩

/-- Witness of C7: the first admission attempt of a fresh listener. -/
theorem admission_attempt_witness :
    ((Server.init maxConnections false).sem.trySend.1 = true ↔
      (Server.init maxConnections false).sem.len < maxConnections) ∧
    ((Server.init maxConnections false).sem.trySend.1 = true →
      (Server.init maxConnections false).sem.trySend.2.len =
        (Server.init maxConnections false).sem.len + 1 ∧
      (Server.init maxConnections false).sem.trySend.2.cap =
        (Server.init maxConnections false).sem.cap) ∧
    ((Server.init maxConnections false).sem.trySend.1 = false →
      (Server.init maxConnections false).sem.trySend.2 =
        (Server.init maxConnections false).sem) ∧
    (∃ s', (Server.init maxConnections false).step (.accept (.ok ⟨1, .ok 0, none⟩)) = some s' ∧
      s'.stopped = false ∧
      s'.sem = (Server.init maxConnections false).sem.trySend.2 ∧
      ((Server.init maxConnections false).sem.len < maxConnections →
        s'.sem.len = (Server.init maxConnections false).sem.len + 1 ∧
        s'.handlers = (Server.init maxConnections false).handlers ++ [(⟨1, .ok 0, none⟩ : Conn).id]) ∧
      (¬ (Server.init maxConnections false).sem.len < maxConnections →
        s'.sem = (Server.init maxConnections false).sem ∧
        s'.handlers = (Server.init maxConnections false).handlers)) :=
  admission_attempt (Server.init maxConnections false) ⟨1, .ok 0, none⟩ rfl rfl

/-- C9: on an iteration of the acceptor loop where `listener.Accept` returns an error:
if `shutdown` is closed the loop terminates (nothing is logged and no further accept
happens), otherwise the error is logged and the loop goes on to the next accept.  In
both cases the semaphore and the set of running handlers are unchanged, and the
iteration starts no handler and closes no connection. -/
theorem accept_error_iteration (s : Server) (e : String) (hrun : s.stopped = false) :
    runServerIter s.shutdown s.sem (.err e) =
      (if s.shutdown then Ctl.stop else Ctl.next, s.sem,
       if s.shutdown then [] else [.logf ("Failed to accept connection: " ++ e)]) ∧
    ∃ s' effs, s.step (.accept (.err e)) = some s' ∧ s'.out = s.out ++ effs ∧
      s'.sem = s.sem ∧ s'.handlers = s.handlers ∧
      effs.countP Effect.isGoHandleConnection = 0 ∧
      effs.countP Effect.isCloseWithError = 0 ∧
      effs.countP Effect.isRelease = 0 ∧
      (s.shutdown = true → s'.stopped = true ∧ effs = [] ∧
        ∀ r, s'.step (.accept r) = none) ∧
      (s.shutdown = false → s'.stopped = false ∧
        effs = [.logf ("Failed to accept connection: " ++ e)] ∧
        ∀ r, s'.step (.accept r) ≠ none) := by
  refine ⟨?_, ?_⟩
  · cases hs : s.shutdown <;> simp [runServerIter]
  · refine ⟨_, _, step_accept_err s e hrun, rfl, rfl, rfl, ?_, ?_, ?_, ?_, ?_⟩
    · cases hs : s.shutdown <;> simp [Effect.isGoHandleConnection]
    · cases hs : s.shutdown <;> simp [Effect.isCloseWithError]
    · cases hs : s.shutdown <;> simp [Effect.isRelease]
    · intro hs
      refine ⟨hs, by simp [hs], ?_⟩
      intro r
      exact step_stopped _ r hs
    · intro hs
      refine ⟨hs, by simp [hs], ?_⟩
      intro r
      exact step_accept_ne_none _ r hs

/-- Witness of C9: an accept error in a fresh listener whose `shutdown` is closed. -/
theorem accept_error_iteration_witness :
    (Server.init maxConnections true).stopped = false ∧
    (runServerIter (Server.init maxConnections true).shutdown
        (Server.init maxConnections true).sem (.err "timeout") =
      (if (Server.init maxConnections true).shutdown then Ctl.stop else Ctl.next,
       (Server.init maxConnections true).sem,
       if (Server.init maxConnections true).shutdown then []
       else [.logf ("Failed to accept connection: " ++ "timeout")]) ∧
    ∃ s' effs, (Server.init maxConnections true).step (.accept (.err "timeout")) = some s' ∧
      s'.out = (Server.init maxConnections true).out ++ effs ∧
      s'.sem = (Server.init maxConnections true).sem ∧
      s'.handlers = (Server.init maxConnections true).handlers ∧
      effs.countP Effect.isGoHandleConnection = 0 ∧
      effs.countP Effect.isCloseWithError = 0 ∧
      effs.countP Effect.isRelease = 0 ∧
      ((Server.init maxConnections true).shutdown = true → s'.stopped = true ∧ effs = [] ∧
        ∀ r, s'.step (.accept r) = none) ∧
      ((Server.init maxConnections true).shutdown = false → s'.stopped = false ∧
        effs = [.logf ("Failed to accept connection: " ++ "timeout")] ∧
        ∀ r, s'.step (.accept r) ≠ none)) :=
  ⟨rfl, accept_error_iteration (Server.init maxConnections true) "timeout" rfl⟩

/-! ## Rejection when the pool is full (C2, C10) -/

/-- C2, as the code has it: when a connection is accepted while `maxConnections` slots
are held, the acceptor calls `OpenStreamSync` on it.  If a stream is returned it writes
exactly `rejectionPayload` to it (logging a write error, if any), closes the stream and
only then closes the connection with code 0; if the open fails it writes nothing and
closes the connection with code 0 right away.  Either way no handler is started, the
semaphore is unchanged and the loop goes on. -/
theorem reject_when_full (sd : Bool) (sem : Chan) (c : Conn)
    (hcap : sem.cap = maxConnections) (hfull : sem.len = maxConnections) :
    ∃ effs, runServerIter sd sem (.ok c) = (.next, sem, effs) ∧
      effs.countP Effect.isGoHandleConnection = 0 ∧
      (∀ stream, c.openStream = .ok stream →
        ∃ logs, effs =
          [.stdout "Maximum Connections Reached\n", .openStreamSync c.id,
           .write stream "Connection rejected: maximum connection limit reached"] ++ logs ++
          [.closeStream stream, .closeWithError c.id 0 "Maximum Connection Reached"] ∧
          logs.all Effect.isLogf = true ∧
          (∀ e, c.writeErr = some e →
            logs = [.logf ("Failed to send rejection message: " ++ e)]) ∧
          (c.writeErr = none → logs = [])) ∧
      (∀ e, c.openStream = .err e →
        effs = [.stdout "Maximum Connections Reached\n", .openStreamSync c.id,
                .closeWithError c.id 0 "Maximum Connection Reached"]) := by
  have hnot : ¬ sem.len < sem.cap := by omega
  refine ⟨_, runServerIter_reject sd sem c hnot, ?_, ?_, ?_⟩
  · unfold rejectConnection
    cases c.openStream <;> cases c.writeErr <;> simp [Effect.isGoHandleConnection]
  · intro stream hopen
    unfold rejectConnection
    rw [hopen]
    cases c.writeErr with
    | none =>
      exact ⟨[], by simp [rejectionPayload, rejectCloseCode], rfl,
        (fun e he => by cases he), (fun _ => rfl)⟩
    | some e =>
      exact ⟨[.logf ("Failed to send rejection message: " ++ e)],
        by simp [rejectionPayload, rejectCloseCode], rfl,
        (fun e' he => by cases he; rfl), (fun he => by cases he)⟩
  · intro e hopen
    unfold rejectConnection
    rw [hopen]
    simp [rejectCloseCode]

/-- Witness of C2 as amended: a sixth connection, whose stream opens, met by a full
semaphore. -/
theorem reject_when_full_witness :
    (⟨5, 5⟩ : Chan).cap = maxConnections ∧ (⟨5, 5⟩ : Chan).len = maxConnections ∧
    ∃ effs, runServerIter false ⟨5, 5⟩ (.ok ⟨6, .ok 0, none⟩) = (.next, ⟨5, 5⟩, effs) ∧
      effs.countP Effect.isGoHandleConnection = 0 ∧
      (∀ stream, (⟨6, .ok 0, none⟩ : Conn).openStream = .ok stream →
        ∃ logs, effs =
          [.stdout "Maximum Connections Reached\n",
           .openStreamSync (⟨6, .ok 0, none⟩ : Conn).id,
           .write stream "Connection rejected: maximum connection limit reached"] ++ logs ++
          [.closeStream stream,
           .closeWithError (⟨6, .ok 0, none⟩ : Conn).id 0 "Maximum Connection Reached"] ∧
          logs.all Effect.isLogf = true ∧
          (∀ e, (⟨6, .ok 0, none⟩ : Conn).writeErr = some e →
            logs = [.logf ("Failed to send rejection message: " ++ e)]) ∧
          ((⟨6, .ok 0, none⟩ : Conn).writeErr = none → logs = [])) ∧
      (∀ e, (⟨6, .ok 0, none⟩ : Conn).openStream = .err e →
        effs = [.stdout "Maximum Connections Reached\n",
                .openStreamSync (⟨6, .ok 0, none⟩ : Conn).id,
                .closeWithError (⟨6, .ok 0, none⟩ : Conn).id 0 "Maximum Connection Reached"]) :=
  ⟨rfl, rfl, reject_when_full false ⟨5, 5⟩ ⟨6, .ok 0, none⟩ rfl rfl⟩

/-- Counterexample to C2 as stated: with five slots held, a sixth connection whose
`OpenStreamSync` fails is closed with code 0 without any `Write`: the rejection payload
is not written to it. -/
theorem reject_without_payload :
    runServerIter false ⟨5, 5⟩ (.ok ⟨6, .err "no stream", none⟩) =
      (.next, ⟨5, 5⟩,
       [.stdout "Maximum Connections Reached\n", .openStreamSync 6,
        .closeWithError 6 0 "Maximum Connection Reached"]) ∧
    (runServerIter false ⟨5, 5⟩ (.ok ⟨6, .err "no stream", none⟩)).2.2.countP Effect.isWrite = 0 ∧
    (⟨5, 5⟩ : Chan).len = maxConnections ∧ (⟨5, 5⟩ : Chan).cap = maxConnections := by
  refine ⟨by rfl, by rfl, rfl, rfl⟩

/-- The part of the best-effort rejection that the code meets: in the pool-full branch a
failed write of the rejection payload is logged; neither the open nor the write is
tried again; and whatever the open and the write return, the connection is closed with
code 0 exactly once, as the last action of the iteration, and the acceptor loop goes on
to the next accept. -/
theorem rejection_best_effort (s : Server) (c : Conn) (hrun : s.stopped = false)
    (hfull : ¬ s.sem.len < s.sem.cap) :
    ∃ s' effs, s.step (.accept (.ok c)) = some s' ∧ s'.out = s.out ++ effs ∧
      s'.stopped = false ∧ (∀ r, s'.step (.accept r) ≠ none) ∧
      effs.countP Effect.isCloseWithError = 1 ∧
      effs.getLast? = some (.closeWithError c.id 0 "Maximum Connection Reached") ∧
      effs.countP Effect.isOpenStreamSync = 1 ∧
      effs.countP Effect.isWrite ≤ 1 ∧
      (∀ stream e, c.openStream = .ok stream → c.writeErr = some e →
        effs.count (.logf ("Failed to send rejection message: " ++ e)) = 1) := by
  refine ⟨_, rejectConnection c, step_accept_reject s c hrun hfull, rfl, hrun,
    fun r => step_accept_ne_none _ r hrun, ?_, ?_, ?_, ?_, ?_⟩
  · unfold rejectConnection
    cases c.openStream <;> cases c.writeErr <;> simp [Effect.isCloseWithError]
  · unfold rejectConnection
    cases c.openStream <;> cases c.writeErr <;> simp [rejectCloseCode]
  · unfold rejectConnection
    cases c.openStream <;> cases c.writeErr <;> simp [Effect.isOpenStreamSync]
  · unfold rejectConnection
    cases c.openStream <;> cases c.writeErr <;> simp [Effect.isWrite]
  · intro stream e hopen hwrite
    unfold rejectConnection
    rw [hopen, hwrite]
    simp

/-- Instance of `rejection_best_effort`: a full pool of two, and a third connection whose
rejection stream opens and whose write fails. -/
theorem rejection_best_effort_witness :
    (⟨false, ⟨2, 2⟩, [1, 2], false, []⟩ : Server).stopped = false ∧
    (¬ (⟨false, ⟨2, 2⟩, [1, 2], false, []⟩ : Server).sem.len <
        (⟨false, ⟨2, 2⟩, [1, 2], false, []⟩ : Server).sem.cap) ∧
    ∃ s' effs, (⟨false, ⟨2, 2⟩, [1, 2], false, []⟩ : Server).step
        (.accept (.ok ⟨3, .ok 0, some "reset"⟩)) = some s' ∧
      s'.out = (⟨false, ⟨2, 2⟩, [1, 2], false, []⟩ : Server).out ++ effs ∧
      s'.stopped = false ∧ (∀ r, s'.step (.accept r) ≠ none) ∧
      effs.countP Effect.isCloseWithError = 1 ∧
      effs.getLast? = some (.closeWithError (⟨3, .ok 0, some "reset"⟩ : Conn).id 0
        "Maximum Connection Reached") ∧
      effs.countP Effect.isOpenStreamSync = 1 ∧
      effs.countP Effect.isWrite ≤ 1 ∧
      (∀ stream e, (⟨3, .ok 0, some "reset"⟩ : Conn).openStream = .ok stream →
        (⟨3, .ok 0, some "reset"⟩ : Conn).writeErr = some e →
        effs.count (.logf ("Failed to send rejection message: " ++ e)) = 1) :=
  ⟨rfl, by decide,
    rejection_best_effort ⟨false, ⟨2, 2⟩, [1, 2], false, []⟩ ⟨3, .ok 0, some "reset"⟩ rfl
      (by decide)⟩

/-- C10 fails on the code: with the pool full, a connection whose `OpenStreamSync` fails
is closed with code 0 and the loop goes on, but nothing is logged for the failed open:
the iteration has no `log.Printf` at all, while a failed write on the same branch
(second part) is logged. -/
theorem open_failure_not_logged :
    runServerIter false ⟨5, 5⟩ (.ok ⟨6, .err "stream limit", some "unused"⟩) =
      (.next, ⟨5, 5⟩,
       [.stdout "Maximum Connections Reached\n", .openStreamSync 6,
        .closeWithError 6 0 "Maximum Connection Reached"]) ∧
    (runServerIter false ⟨5, 5⟩
      (.ok ⟨6, .err "stream limit", some "unused"⟩)).2.2.countP Effect.isLogf = 0 ∧
    runServerIter false ⟨5, 5⟩ (.ok ⟨6, .ok 0, some "reset"⟩) =
      (.next, ⟨5, 5⟩,
       [.stdout "Maximum Connections Reached\n", .openStreamSync 6,
        .write 0 "Connection rejected: maximum connection limit reached",
        .logf "Failed to send rejection message: reset",
        .closeStream 0, .closeWithError 6 0 "Maximum Connection Reached"]) := by
  refine ⟨by rfl, by rfl, by rfl⟩

/-! ## Slot accounting over all interleavings (C1, C3) -/

/-- C1: in every state the listener can reach from an empty pool, by any interleaving of
accepts (admitted or rejected), accept errors, stream accepts and handler exits, at
most `maxConnections = 5` admission slots are held; the running handlers are exactly as
many as the held slots, so at most 5 as well. -/
theorem held_slots_bounded (sd : Bool) (evs : List Event) (s : Server)
    (hreach : (Server.init maxConnections sd).run evs = some s) :
    (Server.init maxConnections sd).sem = connSemaphore ∧
    s.sem.len ≤ 5 ∧ s.handlers.length = s.sem.len ∧ s.handlers.length ≤ 5 := by
  have hinv := inv_run maxConnections evs _ s (inv_init maxConnections sd) hreach
  have hb : s.sem.len ≤ 5 := hinv.bound
  have hh := hinv.held
  exact ⟨rfl, hb, hh.symm, by omega⟩

/-- Witness of C1: six accepts followed by one handler exit. -/
theorem held_slots_bounded_witness :
    (Server.init maxConnections false).run
      [.accept (.ok ⟨1, .ok 0, none⟩), .accept (.ok ⟨2, .ok 0, none⟩),
       .accept (.ok ⟨3, .ok 0, none⟩), .accept (.ok ⟨4, .ok 0, none⟩),
       .accept (.ok ⟨5, .ok 0, none⟩), .accept (.ok ⟨6, .ok 0, none⟩),
       .streamAccept 2 (.err "closed")] =
      some ⟨false, ⟨5, 4⟩, [1, 3, 4, 5], false,
        [.stdout "New connection accepted\n", .goHandleConnection 1,
         .stdout "New connection accepted\n", .goHandleConnection 2,
         .stdout "New connection accepted\n", .goHandleConnection 3,
         .stdout "New connection accepted\n", .goHandleConnection 4,
         .stdout "New connection accepted\n", .goHandleConnection 5,
         .stdout "Maximum Connections Reached\n", .openStreamSync 6,
         .write 0 "Connection rejected: maximum connection limit reached",
         .closeStream 0, .closeWithError 6 0 "Maximum Connection Reached",
         .logf "Failed to accept stream: closed", .release 2]⟩ ∧
    ((Server.init maxConnections false).sem = connSemaphore ∧
      (⟨5, 4⟩ : Chan).len ≤ 5 ∧ [1, 3, 4, 5].length = (⟨5, 4⟩ : Chan).len ∧
      [1, 3, 4, 5].length ≤ 5) := by
  refine ⟨by rfl, ?_⟩
  exact held_slots_bounded false
    [.accept (.ok ⟨1, .ok 0, none⟩), .accept (.ok ⟨2, .ok 0, none⟩),
     .accept (.ok ⟨3, .ok 0, none⟩), .accept (.ok ⟨4, .ok 0, none⟩),
     .accept (.ok ⟨5, .ok 0, none⟩), .accept (.ok ⟨6, .ok 0, none⟩),
     .streamAccept 2 (.err "closed")]
    ⟨false, ⟨5, 4⟩, [1, 3, 4, 5], false, _⟩ (by rfl)

/-- C3: in every state reachable from an empty pool the held slots are exactly as many
as the running handlers, so they are back to 0 once every handler has exited, and for
each connection the releases made so far plus the handlers still running equal the
handlers started (one release per admission, none missing and none twice).  A running
handler keeps its slot while streams are accepted, and on a stream-accept error, its
only exit path, it releases exactly one slot without blocking and is gone; nothing is
released for a connection that has no running handler. -/
theorem release_exactly_once (m : Nat) (sd : Bool) (evs : List Event) (s : Server)
    (hreach : (Server.init m sd).run evs = some s) :
    s.sem.len = s.handlers.length ∧
    (s.handlers = [] → s.sem.len = 0) ∧
    (∀ c, s.out.count (.release c) + s.handlers.count c =
      s.out.count (.goHandleConnection c)) ∧
    (∀ c ∈ s.handlers, ∀ stream, ∃ s', s.step (.streamAccept c (.ok stream)) = some s' ∧
      s'.sem = s.sem ∧ s'.handlers = s.handlers ∧ s'.out = s.out ++ [.goStream c stream]) ∧
    (∀ c ∈ s.handlers, ∀ e, ∃ s', s.step (.streamAccept c (.err e)) = some s' ∧
      s'.sem.len + 1 = s.sem.len ∧ s'.handlers = s.handlers.erase c ∧
      s'.out = s.out ++ [.logf ("Failed to accept stream: " ++ e), .release c]) ∧
    (∀ c, c ∉ s.handlers → ∀ r, s.step (.streamAccept c r) = none) := by
  have hinv := inv_run m evs _ s (inv_init m sd) hreach
  refine ⟨hinv.held, ?_, ?_, ?_, ?_, ?_⟩
  · intro h
    rw [hinv.held, h]
    rfl
  · intro c
    have := hinv.account c
    omega
  · intro c hc stream
    exact ⟨_, step_stream_ok s c stream hc, rfl, rfl, rfl⟩
  · intro c hc e
    have hpos : 0 < s.sem.len := by
      rw [hinv.held]; exact List.length_pos_of_mem hc
    refine ⟨_, step_stream_err s c e hc hpos, ?_, rfl, rfl⟩
    simp only
    omega
  · intro c hc r
    exact step_no_handler s c r hc

/-- Witness of C3: two admissions, one stream, then both handlers exit. -/
theorem release_exactly_once_witness :
    (Server.init 5 false).run
      [.accept (.ok ⟨1, .ok 0, none⟩), .accept (.ok ⟨2, .ok 0, none⟩),
       .streamAccept 1 (.ok 10), .streamAccept 1 (.err "closed"),
       .streamAccept 2 (.err "closed")] =
      some ⟨false, ⟨5, 0⟩, [], false,
        [.stdout "New connection accepted\n", .goHandleConnection 1,
         .stdout "New connection accepted\n", .goHandleConnection 2,
         .goStream 1 10,
         .logf "Failed to accept stream: closed", .release 1,
         .logf "Failed to accept stream: closed", .release 2]⟩ ∧
    (⟨5, 0⟩ : Chan).len = ([] : List Nat).length := by
  have h : (Server.init 5 false).run
      [.accept (.ok ⟨1, .ok 0, none⟩), .accept (.ok ⟨2, .ok 0, none⟩),
       .streamAccept 1 (.ok 10), .streamAccept 1 (.err "closed"),
       .streamAccept 2 (.err "closed")] =
      some ⟨false, ⟨5, 0⟩, [], false,
        [.stdout "New connection accepted\n", .goHandleConnection 1,
         .stdout "New connection accepted\n", .goHandleConnection 2,
         .goStream 1 10,
         .logf "Failed to accept stream: closed", .release 1,
         .logf "Failed to accept stream: closed", .release 2]⟩ := by rfl
  exact ⟨h, (release_exactly_once 5 false _ _ h).1⟩

/-! ## A burst of arrivals (C8) -/

/-- C8, as the code has it: for every capacity `m` and every list of `k` connections
arriving at an empty pool with no handler exit in between, the first `min k m` are
admitted (a handler is started for each and `min k m` slots are held) and each of the
other `k - min k m` is turned away by the rejection branch: no handler is started for
it, it is closed with code 0, and the rejection payload is written to it whenever its
rejection stream opens. -/
theorem burst_admits_min (m : Nat) (sd : Bool) (conns : List Conn) :
    ∃ s, (Server.init m sd).run (conns.map (fun c => Event.accept (.ok c))) = some s ∧
      s.handlers = (conns.take m).map Conn.id ∧
      s.handlers.length = min conns.length m ∧
      s.sem.len = min conns.length m ∧
      s.out =
        (conns.take m).flatMap
          (fun c => [Effect.stdout "New connection accepted\n", .goHandleConnection c.id]) ++
        (conns.drop m).flatMap rejectConnection ∧
      s.out.countP Effect.isGoHandleConnection = min conns.length m ∧
      (conns.drop m).length = conns.length - min conns.length m ∧
      s.out.countP Effect.isCloseWithError = conns.length - min conns.length m ∧
      (∀ c ∈ conns.drop m,
        Effect.closeWithError c.id 0 "Maximum Connection Reached" ∈ s.out) ∧
      (∀ c ∈ conns.drop m, ∀ stream, c.openStream = .ok stream →
        Effect.write stream "Connection rejected: maximum connection limit reached" ∈ s.out) := by
  have hrun := run_arrivals conns (Server.init m sd) rfl (Nat.zero_le _)
  refine ⟨_, hrun, ?_, ?_, ?_, ?_, ?_, ?_, ?_, ?_, ?_⟩
  · simp [Server.init, makeChan]
  · simp [Server.init, makeChan, Nat.min_comm]
  · simp [Server.init, makeChan]
  · simp [Server.init, makeChan]
  · simp only [Server.init, makeChan, Nat.sub_zero, List.nil_append, List.countP_append,
      List.countP_flatMap]
    have h1 : ∀ l : List Conn, (List.map (List.countP Effect.isGoHandleConnection ∘
        fun c => [Effect.stdout "New connection accepted\n", .goHandleConnection c.id]) l).sum
        = l.length := by
      intro l
      induction l with
      | nil => rfl
      | cons a l ih =>
        simp only [List.map_cons, List.sum_cons, ih, List.length_cons]
        simp [Effect.isGoHandleConnection]
        omega
    have h2 : ∀ l : List Conn, (List.map (List.countP Effect.isGoHandleConnection ∘
        rejectConnection) l).sum = 0 := by
      intro l
      induction l with
      | nil => rfl
      | cons a l ih =>
        simp only [List.map_cons, List.sum_cons, ih, Function.comp, countP_go_reject]
    rw [h1, h2, List.length_take, Nat.min_comm]
    rfl
  · simp only [List.length_drop]
    omega
  · simp only [Server.init, makeChan, Nat.sub_zero, List.nil_append, List.countP_append,
      List.countP_flatMap]
    have h1 : ∀ l : List Conn, (List.map (List.countP Effect.isCloseWithError ∘
        fun c => [Effect.stdout "New connection accepted\n", .goHandleConnection c.id]) l).sum
        = 0 := by
      intro l
      induction l with
      | nil => rfl
      | cons a l ih =>
        simp only [List.map_cons, List.sum_cons, ih]
        simp [Effect.isCloseWithError]
    have h2 : ∀ l : List Conn, (List.map (List.countP Effect.isCloseWithError ∘
        rejectConnection) l).sum = l.length := by
      intro l
      induction l with
      | nil => rfl
      | cons a l ih =>
        simp only [List.map_cons, List.sum_cons, ih, Function.comp, countP_close_reject,
          List.length_cons]
        omega
    rw [h1, h2, List.length_drop]
    omega
  · intro c hc
    simp only [Server.init, makeChan, Nat.sub_zero, List.nil_append, List.mem_append,
      List.mem_flatMap]
    exact Or.inr ⟨c, hc, close_mem_reject c⟩
  · intro c hc stream hopen
    simp only [Server.init, makeChan, Nat.sub_zero, List.nil_append, List.mem_append,
      List.mem_flatMap]
    exact Or.inr ⟨c, hc, write_mem_reject c stream hopen⟩

/-- Counterexample to C8 as stated: with capacity 2 and three arrivals, two are admitted
and the third is closed with code 0, but its `OpenStreamSync` fails and no rejection
payload is written to it (there is no `Write` at all). -/
theorem burst_rejected_without_payload :
    (Server.init 2 false).run
      [.accept (.ok ⟨1, .ok 0, none⟩), .accept (.ok ⟨2, .ok 0, none⟩),
       .accept (.ok ⟨3, .err "peer gone", none⟩)] =
      some ⟨false, ⟨2, 2⟩, [1, 2], false,
        [.stdout "New connection accepted\n", .goHandleConnection 1,
         .stdout "New connection accepted\n", .goHandleConnection 2,
         .stdout "Maximum Connections Reached\n", .openStreamSync 3,
         .closeWithError 3 0 "Maximum Connection Reached"]⟩ ∧
    List.countP Effect.isWrite
      [.stdout "New connection accepted\n", .goHandleConnection 1,
       .stdout "New connection accepted\n", .goHandleConnection 2,
       .stdout "Maximum Connections Reached\n", .openStreamSync 3,
       .closeWithError 3 0 "Maximum Connection Reached"] = 0 := by
  refine ⟨by rfl, by rfl⟩

/-! ## Stream handler and client loops (C4, C5, C6) -/

/-- C4 fails on the code: the per-stream goroutine of `handleConnection` does not return
on `io.EOF`.  Fed two end-of-stream results it prints an empty "Received" line for each
and calls `Read` a third time, still running, with the stream not closed. -/
theorem streamHandler_eof_goes_on :
    streamHandler 7 [⟨"", some .eof⟩, ⟨"", some .eof⟩] =
      ([.read 7, .stdout "Received: \n", .read 7, .stdout "Received: \n", .read 7], false) := by
  rfl

/-- C5: in the write loop of `runClient`, whenever the loop gets as far as a line that
trims to `exit` and whose write succeeds, it writes that line, closes the connection
with code 0x42 and ends the process with `os.Exit(0)`; what it does is the same
whatever lines follow, so none of them is written; and every line before it was not
`exit`, was written with success, and is followed by no close. -/
theorem exit_closes_and_terminates (conn stream : Nat) (before after : List ConsoleLine)
    (l : ConsoleLine) (hreach : (clientWriteLoop conn stream before).2 = false)
    (hexit : trimSpace l.raw = "exit") (hwrite : l.writeErr = none) :
    clientWriteLoop conn stream (before ++ l :: after) =
      (before.flatMap (fun b =>
          [Effect.stdout "Enter message: ", .write stream (trimSpace b.raw),
           .stdout "Sent Message\n"]) ++
        [.stdout "Enter message: ", .write stream "exit", .stdout "Sent Message\n",
         .closeWithError conn 0x42 "Client Closed Connection", .osExit 0], true) ∧
    clientWriteLoop conn stream (before ++ l :: after) =
      clientWriteLoop conn stream (before ++ [l]) ∧
    (∀ b ∈ before, b.writeErr = none ∧ trimSpace b.raw ≠ "exit") ∧
    (clientWriteLoop conn stream (before ++ l :: after)).1.countP Effect.isCloseWithError = 1 ∧
    (clientWriteLoop conn stream (before ++ l :: after)).1.countP Effect.isWrite =
      before.length + 1 := by
  have hb := clientWriteLoop_running conn stream before hreach
  have h1 := clientWriteLoop_until_exit conn stream before after l hb hexit hwrite
  have h2 := clientWriteLoop_until_exit conn stream before [] l hb hexit hwrite
  refine ⟨h1, by rw [h1, h2], hb, ?_, ?_⟩
  · rw [h1]
    simp only [List.countP_append, List.countP_flatMap]
    have h0 : ∀ ls : List ConsoleLine, (List.map (List.countP Effect.isCloseWithError ∘
        fun b => [Effect.stdout "Enter message: ", .write stream (trimSpace b.raw),
          .stdout "Sent Message\n"]) ls).sum = 0 := by
      intro ls
      induction ls with
      | nil => rfl
      | cons a ls ih =>
        simp only [List.map_cons, List.sum_cons, ih]
        simp [Effect.isCloseWithError]
    rw [h0]
    simp [Effect.isCloseWithError]
  · rw [h1]
    simp only [List.countP_append, List.countP_flatMap]
    have h0 : ∀ ls : List ConsoleLine, (List.map (List.countP Effect.isWrite ∘
        fun b => [Effect.stdout "Enter message: ", .write stream (trimSpace b.raw),
          .stdout "Sent Message\n"]) ls).sum = ls.length := by
      intro ls
      induction ls with
      | nil => rfl
      | cons a ls ih =>
        simp only [List.map_cons, List.sum_cons, ih, List.length_cons]
        simp [Effect.isWrite]
        omega
    rw [h0]
    simp [Effect.isWrite]

/-- Witness of C5: `hello`, then `exit` (with surrounding blanks), then one more line. -/
theorem exit_closes_and_terminates_witness :
    (clientWriteLoop 0 1 [⟨"hello\n", none⟩]).2 = false ∧
    trimSpace (⟨" exit \n", none⟩ : ConsoleLine).raw = "exit" ∧
    (⟨" exit \n", none⟩ : ConsoleLine).writeErr = none ∧
    clientWriteLoop 0 1 ([⟨"hello\n", none⟩] ++ ⟨" exit \n", none⟩ :: [⟨"more\n", none⟩]) =
      ([.stdout "Enter message: ", .write 1 "hello", .stdout "Sent Message\n",
        .stdout "Enter message: ", .write 1 "exit", .stdout "Sent Message\n",
        .closeWithError 0 0x42 "Client Closed Connection", .osExit 0], true) := by
  have h := exit_closes_and_terminates 0 1 [⟨"hello\n", none⟩] [⟨"more\n", none⟩]
    ⟨" exit \n", none⟩ (by rfl) (by rfl) rfl
  exact ⟨by rfl, by rfl, rfl, h.1⟩

/-- C6 fails on the code: after the rejection payload the client read loop closes the
stream and the connection with code 0 but does not return; it calls `Read` again, and
only the error of that next read (logged as a read error) ends it. -/
theorem clientReadLoop_reads_after_rejection :
    clientReadLoop 0 1
        [⟨"Connection rejected: maximum connection limit reached", none⟩,
         ⟨"", some (.other "connection closed")⟩] =
      ([.read 1,
        .stdout "Client received: Connection rejected: maximum connection limit reached\n",
        .stdout "Client connection rejected: maximum connection limit reached\n",
        .closeStream 1,
        .closeWithError 0 0 "Client exiting due to max connections reached",
        .read 1,
        .logf "Error reading from stream: connection closed"], true) ∧
    (clientReadLoop 0 1
        [⟨"Connection rejected: maximum connection limit reached", none⟩]).2 = false := by
  refine ⟨by rfl, by rfl⟩

end Rainstorm
